import Mathlib

/-!
Shallow embedding of `src/weather.py`: a script that fetches current weather
for a fixed set of cities from the OpenWeather API and appends the results as
rows to a CSV file.

Modelling conventions:
* Python `dict` / `OrderedDict` values (insertion-ordered) are association
  lists `List (String × _)`.
* Python scalar values appearing in records are `PyVal` (string, int, float).
  Every float this program handles — the six configured coordinates and API
  temperatures such as `50.1` — is a decimal with one fractional digit, and
  Python shortest-repr prints it back exactly as written; floats are
  therefore embedded as `PyFloat`, a fixed-point count of tenths, with
  `decStr` modelling Python `str(float)` on them.
* The file system is explicit: a file is `Option String` (`none` = the path
  does not exist, `some c` = the file exists with content `c`).  `di_to_csv`
  returns the new content in `Except`; an `Except.error` result models a
  raised Python exception, in which case the file is untouched (the source
  raises before `open` is ever reached).
* The JSON response body is the inductive `Json`; subscript access that can
  raise `KeyError`/`IndexError`/`TypeError` is `Option`-valued, surfaced as
  `Err.parseError` per the spec's error taxonomy.
* The single outbound HTTP call of `get_weather_for_city` is reified: the
  embedding returns the list of `Request`s issued alongside the result.
-/

/-- Errors of the spec's taxonomy that the embedded code paths can raise.
`lookupError` models Python `KeyError` (a `LookupError`) on the city table,
`parseError` a missing field in the JSON response, `emptyInput` the
`IndexError` raised by `input_li_of_di[0]` on an empty record list. -/
inductive Err where
  | lookupError
  | parseError
  | emptyInput
  deriving DecidableEq, Repr

/-- A Python float with one decimal digit, as a count of tenths
(`42.3` is `⟨423⟩`): every float this program handles is of this form. -/
structure PyFloat where
  tenths : Int
  deriving DecidableEq, Repr

/-- Lets `PyFloat` be written with the source's decimal literals:
`(42.3 : PyFloat)` is `⟨423⟩`. -/
instance : OfScientific PyFloat where
  ofScientific m s e :=
    if s then ⟨(m : Int) * 10 / 10 ^ e⟩ else ⟨(m : Int) * 10 ^ e * 10⟩

instance : Neg PyFloat where
  neg x := ⟨-x.tenths⟩

/-- Python `str(float)` for a one-decimal-digit float: sign, integer part,
`.`, one fractional digit (`str(42.3) == "42.3"`, `str(50.0) == "50.0"`). -/
def decStr (x : PyFloat) : String :=
  (if x.tenths < 0 then "-" else "")
    ++ toString (x.tenths.natAbs / 10) ++ "."
    ++ toString (x.tenths.natAbs % 10)

/-- A Python scalar value as it sits in a record: string, int, or float. -/
inductive PyVal where
  | str : String → PyVal
  | int : Int → PyVal
  | num : PyFloat → PyVal
  deriving DecidableEq, Repr

/-- Python `str(v)` for a record value. -/
def pyStr : PyVal → String
  | .str s => s
  | .int n => toString n
  | .num q => decStr q

/-- An ordered record (Python `OrderedDict`): field names with values, in
insertion order. -/
def Record := List (String × PyVal)

instance : DecidableEq Record := inferInstanceAs (DecidableEq (List (String × PyVal)))

/-- Python `sep.join(li)`: empty string on `[]`, otherwise the elements
interleaved with `sep`. -/
def pyJoin (sep : String) : List String → String
  | [] => ""
  | [x] => x
  | x :: y :: t => x ++ sep ++ pyJoin sep (y :: t)

/-- JSON values as returned by `response.json()`.  Numbers keep Python's
int/float distinction. -/
inductive Json where
  | str : String → Json
  | int : Int → Json
  | num : PyFloat → Json
  | arr : List Json → Json
  | obj : List (String × Json) → Json
  deriving Repr

/-- Python `j[key]` on a JSON object; `none` models `KeyError`/`TypeError`. -/
def Json.getKey : Json → String → Option Json
  | .obj kvs, k => kvs.lookup k
  | _, _ => none

/-- Python `j[i]` on a JSON array; `none` models `IndexError`/`TypeError`. -/
def Json.getIdx : Json → Nat → Option Json
  | .arr l, i => l.get? i
  | _, _ => none

/-- A JSON scalar as a record value; `none` for arrays/objects (the program
only ever stores scalars into records). -/
def Json.toVal : Json → Option PyVal
  | .str s => some (.str s)
  | .int n => some (.int n)
  | .num q => some (.num q)
  | _ => none

/-- A JSON integer (the `dt` Unix timestamp). -/
def Json.asInt : Json → Option Int
  | .int n => some n
  | _ => none

/-- `CITY_GEO_COORDINATES` from `weather.py`: lowercase city name to
(latitude, longitude). -/
def CITY_GEO_COORDINATES : List (String × (PyFloat × PyFloat)) :=
  [("boston", (42.3, -71.1)),
   ("san francisco", (37.7, -122.4)),
   ("london", (51.5, -0.1))]

/-- Python `s.lower()`, for the ASCII city names this program uses. -/
def pyLower (s : String) : String :=
  ⟨s.data.map Char.toLower⟩

/-- `self.base_url` of `OpenWeatherApi`. -/
def base_url : String := "https://api.openweathermap.org/data/2.5"

/-- `OpenWeatherApi._format_arguments`: keyword arguments (in insertion
order) to the query string `?k1=v1&...&kn=vn&appid=<key>`. -/
def format_arguments (api_key : String) (arguments : List (String × String)) : String :=
  let arguments_li := arguments.map (fun kv => kv.1 ++ "=" ++ kv.2)
  "?" ++ pyJoin "&" arguments_li ++ ("&appid=" ++ api_key)

/-- One outbound HTTP GET, as issued by `OpenWeatherApi._get`: the full URL
and the keyword arguments it was built from. -/
structure Request where
  url : String
  args : List (String × String)
  deriving DecidableEq, Repr

/-- The request `OpenWeatherApi._get(endpoint, **arguments)` issues. -/
def mkRequest (api_key endpoint : String) (arguments : List (String × String)) : Request :=
  ⟨base_url ++ endpoint ++ format_arguments api_key arguments, arguments⟩

/-- Civil (year, month, day) from days since 1970-01-01, proleptic
Gregorian (Howard Hinnant's `civil_from_days`). -/
def civilFromDays (z : Int) : Int × Nat × Nat :=
  let z' := z + 719468
  let era := z'.fdiv 146097
  let doe := (z' - era * 146097).toNat
  let yoe := (doe - doe / 1460 + doe / 36524 - doe / 146096) / 365
  let y := (yoe : Int) + era * 400
  let doy := doe - (365 * yoe + yoe / 4 - yoe / 100)
  let mp := (5 * doy + 2) / 153
  let d := doy - (153 * mp + 2) / 5 + 1
  let m := if mp < 10 then mp + 3 else mp - 9
  (if m ≤ 2 then y + 1 else y, m, d)

/-- Zero-padded two-digit rendering (strftime `%m` / `%d`). -/
def pad2 (n : Nat) : String :=
  if n < 10 then "0" ++ toString n else toString n

/-- `time.strftime('%m/%d/%Y', time.localtime(dt))`: the executing machine's
local timezone is the explicit UTC offset `tzOffset` in seconds. -/
def fmtDate (tzOffset : Int) (dt : Int) : String :=
  let days := (dt + tzOffset).fdiv 86400
  let ymd := civilFromDays days
  pad2 ymd.2.1 ++ "/" ++ pad2 ymd.2.2 ++ "/" ++ toString ymd.1

/-- `OpenWeatherApi.get_weather_for_city`.  Returns the requests issued
(empty if the city lookup raised before the HTTP call) together with the
resulting record or error.  `resp` is the JSON body the server answered
with; `tzOffset` is the machine's local UTC offset in seconds. -/
def get_weather_for_city (api_key city : String) (resp : Json) (tzOffset : Int) :
    List Request × Except Err Record :=
  match CITY_GEO_COORDINATES.lookup (pyLower city) with
  | none => ([], .error .lookupError)
  | some coords =>
    let latitude := coords.1
    let longitude := coords.2
    let req := mkRequest api_key "/onecall"
      [("lat", decStr latitude), ("lon", decStr longitude),
       ("exclude", "hourly,daily,minutely"), ("units", "imperial")]
    let parsed : Option Record := do
      let response_di ← resp.getKey "current"
      let dt ← (← response_di.getKey "dt").asInt
      let temp ← (← response_di.getKey "temp").toVal
      let desc ← (← (← (← response_di.getKey "weather").getIdx 0).getKey "description").toVal
      let pressure ← (← response_di.getKey "pressure").toVal
      let humidity ← (← response_di.getKey "humidity").toVal
      pure [("city", .str city),
            ("date", .str (fmtDate tzOffset dt)),
            ("temperature", temp),
            ("description", desc),
            ("pressure", pressure),
            ("humidity", humidity)]
    ([req], match parsed with
      | none => .error .parseError
      | some r => .ok r)

/-- The text the per-line write loop of `di_to_csv` appends: each row
followed by `'\n'`. -/
def linesText : List String → String
  | [] => ""
  | l :: ls => l ++ "\n" ++ linesText ls

/-- `di_to_csv(input_li_of_di, filepath)`.  The file at `filepath` is
`file` (`none` when `os.path.isfile` is false).  Returns the file's new
content, or the exception raised (in which case the file is unchanged —
the source raises on `input_li_of_di[0]` before `open`). -/
def di_to_csv (input_li_of_di : List Record) (file : Option String) : Except Err String :=
  let csv_exists := file.isSome
  let list_of_value_li := input_li_of_di.map (fun di => di.map (fun kv => pyStr kv.2))
  let rows : Except Err (List (List String)) :=
    if csv_exists then .ok list_of_value_li
    else
      match input_li_of_di with
      | [] => .error .emptyInput
      | di0 :: _ => .ok (di0.map Prod.fst :: list_of_value_li)
  match rows with
  | .error e => .error e
  | .ok rs =>
    let csv_rows_li := rs.map (pyJoin ",")
    .ok (file.getD "" ++ linesText csv_rows_li)

/-- The CSV data line `di_to_csv` writes for one record: stringified values,
comma-joined. -/
def recordLine (di : Record) : String :=
  pyJoin "," (di.map (fun kv => pyStr kv.2))

/-- The header line `di_to_csv` writes when the file is new: the first
record's field names, comma-joined. -/
def headerOf (records : List Record) : String :=
  pyJoin "," ((records.headD []).map Prod.fst)

/-- Splitting a string on commas — Python `s.split(',')`, the re-reading
operation of the round-trip property (not part of the source). -/
def splitCommaAux : List Char → List Char → List String
  | [], acc => [⟨acc.reverse⟩]
  | c :: cs, acc =>
    if c = ',' then ⟨acc.reverse⟩ :: splitCommaAux cs [] else splitCommaAux cs (c :: acc)

/-- Python `s.split(',')`. -/
def splitComma (s : String) : List String :=
  splitCommaAux s.data []


/-! ## Helper lemmas -/

theorem pyJoin_cons_merge (sep x a : String) (as : List String) :
    pyJoin sep ((x ++ sep ++ a) :: as) = x ++ sep ++ pyJoin sep (a :: as) := by
  cases as <;> simp [pyJoin, String.append_assoc]

theorem intercalate_go_eq (sep : String) (l : List String) (acc : String) :
    String.intercalate.go acc sep l = pyJoin sep (acc :: l) := by
  induction l generalizing acc with
  | nil => simp [String.intercalate.go, pyJoin]
  | cons a as ih =>
    rw [String.intercalate.go, ih, pyJoin_cons_merge]
    rfl

theorem pyJoin_eq_intercalate (sep : String) (l : List String) :
    pyJoin sep l = String.intercalate sep l := by
  cases l with
  | nil => rfl
  | cons a as => rw [String.intercalate, intercalate_go_eq]

theorem map_recordLine (records : List Record) :
    (records.map (fun di => di.map (fun kv => pyStr kv.2))).map (pyJoin ",") =
      records.map recordLine := by
  rw [List.map_map]; rfl

theorem di_to_csv_eq_ok (records : List Record) (file : Option String)
    (h : records ≠ [] ∨ file.isSome) :
    di_to_csv records file = .ok (file.getD "" ++ linesText
      ((if file.isSome then [] else [headerOf records]) ++ records.map recordLine)) := by
  rw [← map_recordLine]
  cases file with
  | some c => rfl
  | none =>
    cases records with
    | nil => exact absurd rfl (h.resolve_right (by simp))
    | cons r rs => rfl

/-! ## Claim theorems -/

/-- Claim C1, counterexample: with an empty record list and an already
existing file, `di_to_csv` does not fail at all — it returns the file's
content unchanged, so the claim's "fails with `EmptyInputError` ...
regardless of whether the file already exists" is false for an existing
file. -/
theorem C1_counterexample :
    di_to_csv [] (some "x\n") ≠ .error .emptyInput ∧
    di_to_csv [] (some "x\n") = .ok "x\n" := by
  have h : di_to_csv [] (some "x\n") = .ok "x\n" := rfl
  exact ⟨by rw [h]; exact fun hc => Except.noConfusion hc, h⟩

/-- Claim C1, amended: calling `di_to_csv` with an empty record list never
changes the file content; it fails with `EmptyInputError` exactly when the
file does not yet exist, and is a successful no-op when the file exists. -/
theorem C1_empty_records :
    di_to_csv [] none = .error .emptyInput ∧
    ∀ c : String, di_to_csv [] (some c) = .ok c := by
  refine ⟨rfl, fun c => ?_⟩
  rw [di_to_csv_eq_ok [] (some c) (Or.inr rfl)]
  simp [linesText, String.append_empty]

/-- Claim C2: for a non-empty record list, `di_to_csv` writes lines that
begin with the header (the first record's field names, comma-joined) if and
only if the file does not already exist; against an existing path only data
lines are appended, never a header. -/
theorem C2_header_iff_new (records : List Record) (h : records ≠ [])
    (file : Option String) :
    di_to_csv records file = .ok (file.getD "" ++ linesText
      ((if file.isSome then [] else [headerOf records]) ++ records.map recordLine)) :=
  di_to_csv_eq_ok records file (Or.inl h)

/-- Claim C2, witness: creating a one-record file writes header then data;
the second call on the resulting file appends only the data line. -/
theorem C2_witness :
    di_to_csv [[("a", PyVal.str "1")]] none = .ok "a\n1\n" ∧
    di_to_csv [[("a", PyVal.str "1")]] (some "a\n1\n") = .ok "a\n1\n1\n" := by
  constructor
  · rw [C2_header_iff_new [[("a", PyVal.str "1")]] (List.cons_ne_nil _ _) none]
    rfl
  · rw [C2_header_iff_new [[("a", PyVal.str "1")]] (List.cons_ne_nil _ _) (some "a\n1\n")]
    rfl

/-- Claim C3: `_format_arguments` returns exactly the `?`-prefixed,
`&`-joined `key=value` pairs in insertion order, with the API key appended
as a trailing `appid=<key>` parameter; keys and values appear verbatim (no
escaping or encoding). -/
theorem C3_format_arguments (api_key : String) (arguments : List (String × String)) :
    format_arguments api_key arguments =
      "?" ++ String.intercalate "&" (arguments.map (fun kv => kv.1 ++ "=" ++ kv.2))
        ++ "&appid=" ++ api_key := by
  rw [format_arguments, ← pyJoin_eq_intercalate]
  simp [String.append_assoc]

/-- Claim C10: with zero keyword arguments, `_format_arguments` returns
`?&appid=<key>` — the `&` before `appid` is emitted even though no other
parameter exists, leaving an empty first segment after `?`. -/
theorem C10_empty_arguments (api_key : String) :
    format_arguments api_key [] = "?&appid=" ++ api_key := by
  show "?" ++ pyJoin "&" ([].map fun kv : String × String => kv.1 ++ "=" ++ kv.2)
      ++ ("&appid=" ++ api_key) = "?&appid=" ++ api_key
  rw [List.map_nil, show pyJoin "&" [] = "" from rfl, String.append_empty,
    ← String.append_assoc]
  rfl

/-- Claim C7: for a non-empty record list, `di_to_csv` appends one line per
record in input order — each record's stringified field values comma-joined
with no quoting or escaping — after the optional header, every line
terminated by a single newline. -/
theorem C7_data_lines (records : List Record) (h : records ≠ [])
    (file : Option String) :
    di_to_csv records file = .ok (file.getD ""
      ++ ((if file.isSome then "" else headerOf records ++ "\n")
        ++ linesText (records.map recordLine))) := by
  rw [di_to_csv_eq_ok records file (Or.inl h)]
  cases file with
  | some c => rfl
  | none => rw [if_neg (by simp), if_neg (by simp)]; rfl

/-- Claim C7, witness: two records against an existing file append exactly
their two data lines, in order. -/
theorem C7_witness :
    di_to_csv
      [[("city", PyVal.str "boston"), ("humidity", PyVal.int 35)],
       [("city", PyVal.str "london"), ("humidity", PyVal.int 40)]]
      (some "city,humidity\n") = .ok "city,humidity\nboston,35\nlondon,40\n" := by
  rw [C7_data_lines _ (List.cons_ne_nil _ _) (some "city,humidity\n")]
  rfl

/-- Claim C9: `di_to_csv` never truncates or rewrites an existing file —
whatever content the file held before the call is a prefix of its content
after the call, for every record list. -/
theorem C9_append_only (records : List Record) (c : String) :
    ∃ rest, di_to_csv records (some c) = .ok (c ++ rest) := by
  refine ⟨linesText (records.map recordLine), ?_⟩
  rw [di_to_csv_eq_ok records (some c) (Or.inr rfl)]
  rfl

/-- The four keyword arguments `get_weather_for_city` passes to `_get`, in
call order. -/
def weatherArgs (lat lon : PyFloat) : List (String × String) :=
  [("lat", decStr lat), ("lon", decStr lon),
   ("exclude", "hourly,daily,minutely"), ("units", "imperial")]

theorem requests_of_lookup (api_key city : String) (resp : Json) (tz : Int)
    (lat lon : PyFloat)
    (hl : CITY_GEO_COORDINATES.lookup (pyLower city) = some (lat, lon)) :
    (get_weather_for_city api_key city resp tz).1 =
      [mkRequest api_key "/onecall" (weatherArgs lat lon)] := by
  unfold get_weather_for_city
  rw [hl]
  rfl

theorem lookup_failure (api_key city : String) (resp : Json) (tz : Int)
    (hn : CITY_GEO_COORDINATES.lookup (pyLower city) = none) :
    get_weather_for_city api_key city resp tz = ([], .error .lookupError) := by
  unfold get_weather_for_city
  rw [hn]

/-- Claim C4: `get_weather_for_city` resolves its city case-insensitively —
whenever the lowercased name is in the configured table it issues the
request for that city's coordinates, and whenever it is not, it fails with
the `LookupError` (`KeyError`) of the table access. -/
theorem C4_city_resolution (api_key city : String) (resp : Json) (tz : Int) :
    (∀ lat lon, CITY_GEO_COORDINATES.lookup (pyLower city) = some (lat, lon) →
      (get_weather_for_city api_key city resp tz).1 =
        [mkRequest api_key "/onecall" (weatherArgs lat lon)]) ∧
    (CITY_GEO_COORDINATES.lookup (pyLower city) = none →
      get_weather_for_city api_key city resp tz = ([], .error .lookupError)) :=
  ⟨fun lat lon hl => requests_of_lookup api_key city resp tz lat lon hl,
   fun hn => lookup_failure api_key city resp tz hn⟩

/-- Claim C4, witness: `"BOSTON"` resolves to Boston's coordinates and
`"UNKNOWN"` fails with the lookup error. -/
theorem C4_witness :
    (get_weather_for_city "K" "BOSTON" (Json.obj []) 0).1 =
      [mkRequest "K" "/onecall" (weatherArgs 42.3 (-71.1))] ∧
    get_weather_for_city "K" "UNKNOWN" (Json.obj []) 0 = ([], .error .lookupError) :=
  ⟨(C4_city_resolution "K" "BOSTON" (Json.obj []) 0).1 42.3 (-71.1) (by decide),
   (C4_city_resolution "K" "UNKNOWN" (Json.obj []) 0).2 (by decide)⟩

/-- Claim C5: for each configured city, `get_weather_for_city` issues
exactly one request, and that request's query parameters carry the city's
configured latitude and longitude plus the literal `exclude` and `units`
parameters. -/
theorem C5_request_parameters (api_key : String) (resp : Json) (tz : Int)
    (city : String) (lat lon : PyFloat)
    (h : (city, (lat, lon)) ∈ CITY_GEO_COORDINATES) :
    (get_weather_for_city api_key city resp tz).1.length = 1 ∧
    ∀ r ∈ (get_weather_for_city api_key city resp tz).1,
      ("lat", decStr lat) ∈ r.args ∧ ("lon", decStr lon) ∈ r.args ∧
      ("exclude", "hourly,daily,minutely") ∈ r.args ∧
      ("units", "imperial") ∈ r.args := by
  simp only [CITY_GEO_COORDINATES, List.mem_cons, List.not_mem_nil, or_false,
    Prod.mk.injEq] at h
  rcases h with ⟨h1, h2, h3⟩ | ⟨h1, h2, h3⟩ | ⟨h1, h2, h3⟩ <;>
    subst h1 <;> subst h2 <;> subst h3
  · rw [requests_of_lookup api_key "boston" resp tz 42.3 (-71.1) (by decide)]
    refine ⟨rfl, fun r hr => ?_⟩
    rw [List.mem_singleton] at hr
    subst hr
    simp [mkRequest, weatherArgs]
  · rw [requests_of_lookup api_key "san francisco" resp tz 37.7 (-122.4) (by decide)]
    refine ⟨rfl, fun r hr => ?_⟩
    rw [List.mem_singleton] at hr
    subst hr
    simp [mkRequest, weatherArgs]
  · rw [requests_of_lookup api_key "london" resp tz 51.5 (-0.1) (by decide)]
    refine ⟨rfl, fun r hr => ?_⟩
    rw [List.mem_singleton] at hr
    subst hr
    simp [mkRequest, weatherArgs]

/-- Claim C5, witness: the London request carries `lat=51.5`, `lon=-0.1`,
`exclude=hourly,daily,minutely` and `units=imperial`. -/
theorem C5_witness :
    (get_weather_for_city "K" "london" (Json.obj []) 0).1.length = 1 ∧
    ∀ r ∈ (get_weather_for_city "K" "london" (Json.obj []) 0).1,
      ("lat", decStr 51.5) ∈ r.args ∧ ("lon", decStr (-0.1)) ∈ r.args ∧
      ("exclude", "hourly,daily,minutely") ∈ r.args ∧
      ("units", "imperial") ∈ r.args :=
  C5_request_parameters "K" (Json.obj []) 0 "london" 51.5 (-0.1) (by decide)

/-- The JSON response of the spec's worked example: `current.dt=1666542000`,
`temp=50.1`, `weather=[{description:"few clouds"}]`, `pressure=1026`,
`humidity=35`. -/
def sampleResponse : Json :=
  .obj [("current", .obj
    [("dt", .int 1666542000),
     ("temp", .num 50.1),
     ("weather", .arr [.obj [("description", .str "few clouds")]]),
     ("pressure", .int 1026),
     ("humidity", .int 35)])]

/-- Claim C6: on the sample response, `get_weather_for_city` produces an
ordered record of exactly six fields — city, date, temperature,
description, pressure, humidity, in that order — whose values are the
requested city, the local-time `MM/DD/YYYY` rendering of `1666542000`,
`50.1`, `"few clouds"`, `1026` and `35`. -/
theorem C6_record_mapping (api_key city : String) (tz : Int)
    (h : (CITY_GEO_COORDINATES.lookup (pyLower city)).isSome) :
    (get_weather_for_city api_key city sampleResponse tz).2 =
      .ok [("city", PyVal.str city),
           ("date", PyVal.str (fmtDate tz 1666542000)),
           ("temperature", PyVal.num 50.1),
           ("description", PyVal.str "few clouds"),
           ("pressure", PyVal.int 1026),
           ("humidity", PyVal.int 35)] := by
  rw [Option.isSome_iff_exists] at h
  obtain ⟨⟨lat, lon⟩, hl⟩ := h
  unfold get_weather_for_city
  rw [hl]
  rfl

/-- Claim C6, witness: for Boston in UTC the produced record is exactly the
six fields with date `10/23/2022`. -/
theorem C6_witness :
    (get_weather_for_city "K" "boston" sampleResponse 0).2 =
      .ok [("city", PyVal.str "boston"),
           ("date", PyVal.str "10/23/2022"),
           ("temperature", PyVal.num 50.1),
           ("description", PyVal.str "few clouds"),
           ("pressure", PyVal.int 1026),
           ("humidity", PyVal.int 35)] := by
  rw [C6_record_mapping "K" "boston" 0 (by decide)]
  rfl

theorem splitCommaAux_no_comma (xs : List Char) (acc : List Char)
    (h : ',' ∉ xs) :
    splitCommaAux xs acc = [⟨acc.reverse ++ xs⟩] := by
  induction xs generalizing acc with
  | nil => simp [splitCommaAux]
  | cons c cs ih =>
    rw [splitCommaAux, if_neg (fun hc : c = ',' => h (hc ▸ List.mem_cons_self c cs)),
      ih _ (fun hm => h (List.mem_cons_of_mem _ hm))]
    simp [List.append_assoc]

theorem splitCommaAux_comma (xs rest acc : List Char) (h : ',' ∉ xs) :
    splitCommaAux (xs ++ ',' :: rest) acc =
      ⟨acc.reverse ++ xs⟩ :: splitCommaAux rest [] := by
  induction xs generalizing acc with
  | nil => simp [splitCommaAux]
  | cons c cs ih =>
    rw [List.cons_append, splitCommaAux,
      if_neg (fun hc : c = ',' => h (hc ▸ List.mem_cons_self c cs)),
      ih _ (fun hm => h (List.mem_cons_of_mem _ hm))]
    simp [List.append_assoc]

theorem splitComma_pyJoin (l : List String) (h : l ≠ [])
    (hc : ∀ x ∈ l, ',' ∉ x.data) :
    splitComma (pyJoin "," l) = l := by
  induction l with
  | nil => exact absurd rfl h
  | cons x xs ih =>
    cases xs with
    | nil =>
      show splitCommaAux x.data [] = [x]
      rw [splitCommaAux_no_comma x.data [] (hc x (List.mem_singleton.mpr rfl))]
      simp
    | cons y ys =>
      show splitComma (x ++ "," ++ pyJoin "," (y :: ys)) = x :: y :: ys
      have hdata : (x ++ "," ++ pyJoin "," (y :: ys)).data
          = x.data ++ ',' :: (pyJoin "," (y :: ys)).data := by
        rw [String.data_append, String.data_append,
          show ("," : String).data = [','] from rfl, List.append_assoc]
        rfl
      rw [splitComma, hdata,
        splitCommaAux_comma _ _ _ (hc x (List.mem_cons_self _ _))]
      rw [show splitCommaAux (pyJoin "," (y :: ys)).data [] =
          splitComma (pyJoin "," (y :: ys)) from rfl]
      rw [ih (List.cons_ne_nil _ _) (fun z hz => hc z (List.mem_cons_of_mem _ hz))]
      simp

/-- Claim C8, counterexample: the record with no fields breaks the
round-trip — its data line is the empty string, which re-splits to `[""]`,
not to the empty value list. -/
theorem C8_counterexample :
    splitComma (recordLine ([] : Record)) ≠
      ([] : Record).map (fun kv => pyStr kv.2) := by
  decide

/-- Claim C8, amended: for every record with at least one field whose
stringified field values contain no comma, splitting the written data line
on commas reconstructs exactly the original stringified field values. -/
theorem C8_roundtrip (di : Record) (h : di ≠ ([] : Record))
    (hc : ∀ x ∈ di.map (fun kv => pyStr kv.2), ',' ∉ x.data) :
    splitComma (recordLine di) = di.map (fun kv => pyStr kv.2) := by
  apply splitComma_pyJoin
  · intro hm
    exact h (List.map_eq_nil_iff.mp hm)
  · exact hc

/-- Claim C8, witness: a two-field record round-trips through its CSV
line. -/
theorem C8_witness :
    splitComma (recordLine
      [("city", PyVal.str "boston"), ("temperature", PyVal.num 50.1)])
      = ["boston", "50.1"] := by
  rw [C8_roundtrip _ (by decide) (by decide)]
  rfl
